import Mathlib

/-!
Verification of the time-windowed metrics computation engine of the
analytics dashboard (API routes under app/api/analytics and the
DateRangePicker component).

Timestamps are modelled as milliseconds since the epoch (`Int`), matching
`Date.getTime()`.  User / journey ids are modelled as `Nat` (the routes only
compare them for equality).  Record streams are finite lists; a MongoDB
`countDocuments`/`aggregate` call over a range filter becomes a `List.filter`
by the corresponding predicate.  JavaScript `Number(x.toFixed(n))` becomes
round-half-away-from-zero at `n` decimals over `ℚ`.

Fields of the responses that no verified property mentions (gender
distribution, registration trends, monthly trends, duration histogram,
daily time series, network graph annotations) are omitted from the record
types; every field that is present is translated from the route sources.
-/

namespace Dashboard

/-- Milliseconds in one day. -/
def msPerDay : Int := 86400000

/-- JS `d.setHours(23, 59, 59, 999)` on a UTC date: last millisecond of the
day containing `t`. -/
def endOfDayMs (t : Int) : Int := t - t % msPerDay + 86399999

/-- A MongoDB range filter `{ $gte: lo?, $lte: hi? }` applied to a record
timestamp `t`; an absent bound does not filter. -/
def inDateRange (lo hi : Option Int) (t : Int) : Bool :=
  (match lo with
   | none => true
   | some l => decide (l ≤ t)) &&
  (match hi with
   | none => true
   | some h => decide (t ≤ h))

/-- JS `Number(x.toFixed(1))`: round to one decimal place, ties away from
zero. -/
def jsRound1 (x : ℚ) : ℚ :=
  if x < 0 then -((⌊-x * 10 + 1/2⌋ : ℚ) / 10) else (⌊x * 10 + 1/2⌋ : ℚ) / 10

/-- JS `Number(x.toFixed(2))`: round to two decimal places, ties away from
zero. -/
def jsRound2 (x : ℚ) : ℚ :=
  if x < 0 then -((⌊-x * 100 + 1/2⌋ : ℚ) / 100) else (⌊x * 100 + 1/2⌋ : ℚ) / 100

/-- JS `Number(x.toFixed(4))`: round to four decimal places, ties away from
zero. -/
def jsRound4 (x : ℚ) : ℚ :=
  if x < 0 then -((⌊-x * 10000 + 1/2⌋ : ℚ) / 10000)
  else (⌊x * 10000 + 1/2⌋ : ℚ) / 10000

/-- A document of the `pandas_users` collection. -/
structure User where
  id : Nat
  createdAt : Int
deriving DecidableEq

/-- A document of the `pandas_journey` collection. -/
structure Journey where
  userId : Nat
  start_date : Int
  end_date : Option Int
  status : String
  destination : String
deriving DecidableEq

/-- A document of the `pandas_comments` collection. -/
structure Comment where
  userId : Nat
  journeyId : Nat
  created_at : Int
deriving DecidableEq

/-- A document of the `pandas_friends` collection. -/
structure Friendship where
  followerId : Nat
  followeeId : Nat
  created_at : Int
deriving DecidableEq

/-- A document of the `pandas_joinJourneyRequest` collection. -/
structure JoinRequest where
  userId : Nat
  status : String
  created_at : Int
deriving DecidableEq

/-- Snapshot of the entity store at request time.  `joinRequests = none`
models the `pandas_joinJourneyRequest` collection being absent (the social
route catches that case and degrades to defaults). -/
structure Store where
  users : List User
  journeys : List Journey
  comments : List Comment
  friends : List Friendship
  joinRequests : Option (List JoinRequest)
deriving DecidableEq

/-- `journeysCollection.countDocuments` under a `start_date` range filter. -/
def countJourneysIn (st : Store) (lo hi : Option Int) : Nat :=
  (st.journeys.filter (fun j => inDateRange lo hi j.start_date)).length

/-- `commentsCollection.countDocuments` under a `created_at` range filter. -/
def countCommentsIn (st : Store) (lo hi : Option Int) : Nat :=
  (st.comments.filter (fun c => inDateRange lo hi c.created_at)).length

/-- `friendsCollection.countDocuments` under a `created_at` range filter. -/
def countFriendsIn (st : Store) (lo hi : Option Int) : Nat :=
  (st.friends.filter (fun f => inDateRange lo hi f.created_at)).length

/-- `journeysCollection.distinct('user_id', filter)`: distinct owner ids of
journeys whose `start_date` passes the range filter. -/
def journeyUserIds (st : Store) (lo hi : Option Int) : Finset Nat :=
  ((st.journeys.filter (fun j => inDateRange lo hi j.start_date)).map
    Journey.userId).toFinset

/-- `commentsCollection.distinct('user_id', filter)`: distinct author ids of
comments whose `created_at` passes the range filter. -/
def commentUserIds (st : Store) (lo hi : Option Int) : Finset Nat :=
  ((st.comments.filter (fun c => inDateRange lo hi c.created_at)).map
    Comment.userId).toFinset

/-- Union of journey owners and comment authors inside the range: the
`activeUserIds` set built in the users and overview routes. -/
def activeUserIds (st : Store) (lo hi : Option Int) : Finset Nat :=
  journeyUserIds st lo hi ∪ commentUserIds st lo hi

/-- `previousPeriodStart = periodStart - (periodEnd - periodStart)` as in the
users and overview routes. -/
def previousPeriodStart (s e : Int) : Int := s - (e - s)

/-- `previousPeriodEnd = periodStart` as in the users and overview routes. -/
def previousPeriodEnd (s _e : Int) : Int := s

/-- The `activityDateFilter` of the users and overview routes applied to a
timestamp: `$gte` the raw start, `$lte` the end normalized by
`setHours(23, 59, 59, 999)`. -/
def usersCurrentWindowFilter (s e t : Int) : Bool :=
  inDateRange (some s) (some (endOfDayMs e)) t

/-- The `previousActivityFilter` of the users and overview routes applied to
a timestamp: `$gte previousPeriodStart`, `$lte previousPeriodEnd`, both
inclusive. -/
def usersPreviousWindowFilter (s e t : Int) : Bool :=
  inDateRange (some (previousPeriodStart s e)) (some (previousPeriodEnd s e)) t

/-- An entry of the `mostActiveUsers` aggregation: user id together with
`activity_score = journey_count + 0.5 * comment_count`. -/
structure ActiveEntry where
  user_id : Nat
  activity_score : ℚ
deriving DecidableEq

/-- Insert into a list sorted by descending key, keeping earlier elements
first on ties (the store returns ties in an unspecified order; the model
fixes the stable one). -/
def insertByKeyDesc {α : Type} (key : α → ℚ) (x : α) : List α → List α
  | [] => [x]
  | y :: ys =>
    if key x ≤ key y then y :: insertByKeyDesc key x ys else x :: y :: ys

/-- `$sort: { key: -1 }` as an insertion sort. -/
def sortByKeyDesc {α : Type} (key : α → ℚ) : List α → List α
  | [] => []
  | x :: xs => insertByKeyDesc key x (sortByKeyDesc key xs)

/-- computeMostActiveUsers of the users route: per user, count the journeys
and comments inside the activity window (raw start, end-of-day end), score
them `journeys + 0.5 * comments`, keep positive scores, sort by score
descending, take `limit`. -/
def computeMostActiveUsers (st : Store) (startDate endDate : Option Int)
    (limit : Nat) : List ActiveEntry :=
  let lo := startDate
  let hi := endDate.map endOfDayMs
  let entries : List ActiveEntry := st.users.map (fun u =>
    { user_id := u.id
      activity_score :=
        ((st.journeys.filter (fun j =>
            j.userId == u.id && inDateRange lo hi j.start_date)).length : ℚ)
        + ((st.comments.filter (fun c =>
            c.userId == u.id && inDateRange lo hi c.created_at)).length : ℚ)
          * (1 / 2) })
  (sortByKeyDesc ActiveEntry.activity_score
    (entries.filter (fun a => decide (0 < a.activity_score)))).take limit

/-- Active user count for the request window in the users and overview
routes (raw start bound, end-of-day end bound). -/
def windowActiveUsers (st : Store) (sd ed : Option Int) : Nat :=
  (activeUserIds st sd (ed.map endOfDayMs)).card

/-- totalJourneys of the overview and users routes (end-of-day end bound). -/
def overviewTotalJourneys (st : Store) (sd ed : Option Int) : Nat :=
  countJourneysIn st sd (ed.map endOfDayMs)

/-- totalComments of the overview and users routes (end-of-day end bound). -/
def overviewTotalComments (st : Store) (sd ed : Option Int) : Nat :=
  countCommentsIn st sd (ed.map endOfDayMs)

/-- previousActiveUsers of the overview route: distinct active users of
`[previousPeriodStart, previousPeriodEnd]`, both bounds inclusive. -/
def previousActiveUsers (st : Store) (s e : Int) : Nat :=
  (activeUserIds st (some (previousPeriodStart s e))
    (some (previousPeriodEnd s e))).card

/-- previousJourneys of the overview route. -/
def previousJourneys (st : Store) (s e : Int) : Nat :=
  countJourneysIn st (some (previousPeriodStart s e)) (some (previousPeriodEnd s e))

/-- previousComments of the overview route. -/
def previousComments (st : Store) (s e : Int) : Nat :=
  countCommentsIn st (some (previousPeriodStart s e)) (some (previousPeriodEnd s e))

/-- The `userGrowthRate` local of computeOverviewAnalytics before rounding:
computed only when both bounds are present and the previous active count is
positive, `0` otherwise. -/
def overviewUserGrowthRateRaw (st : Store) (sd ed : Option Int) : ℚ :=
  match sd, ed with
  | some s, some e =>
    if 0 < previousActiveUsers st s e then
      ((windowActiveUsers st sd ed : ℚ) - previousActiveUsers st s e)
        / previousActiveUsers st s e * 100
    else 0
  | _, _ => 0

/-- The `journeyGrowthRate` local of computeOverviewAnalytics before
rounding. -/
def overviewJourneyGrowthRateRaw (st : Store) (sd ed : Option Int) : ℚ :=
  match sd, ed with
  | some s, some e =>
    if 0 < previousJourneys st s e then
      ((overviewTotalJourneys st sd ed : ℚ) - previousJourneys st s e)
        / previousJourneys st s e * 100
    else 0
  | _, _ => 0

/-- The `engagementGrowthRate` local of computeOverviewAnalytics before
rounding; engagement is `comments + journeys`. -/
def overviewEngagementGrowthRateRaw (st : Store) (sd ed : Option Int) : ℚ :=
  match sd, ed with
  | some s, some e =>
    let previousEngagement := previousComments st s e + previousJourneys st s e
    if 0 < previousEngagement then
      (((overviewTotalComments st sd ed + overviewTotalJourneys st sd ed : Nat) : ℚ)
        - previousEngagement) / previousEngagement * 100
    else 0
  | _, _ => 0

/-- avgCommentsPerJourney of the overview route:
`totalJourneys > 0 ? Number((totalComments / totalJourneys).toFixed(2)) : 0`. -/
def overviewAvgCommentsPerJourney (st : Store) (sd ed : Option Int) : ℚ :=
  if 0 < overviewTotalJourneys st sd ed then
    jsRound2 ((overviewTotalComments st sd ed : ℚ) / overviewTotalJourneys st sd ed)
  else 0

/-- The overview response fields the verified properties mention. -/
structure OverviewMetrics where
  total_users : Nat
  active_users : Nat
  total_journeys : Nat
  active_journeys : Nat
  total_comments : Nat
  total_friendships : Nat
  user_growth_rate : ℚ
  journey_growth_rate : ℚ
  engagement_growth_rate : ℚ
  avg_comments_per_journey : ℚ
  avg_friends_per_user : ℚ
  engagement_rate : ℚ
deriving DecidableEq

/-- computeOverviewAnalytics of the overview route. -/
def computeOverviewAnalytics (st : Store) (sd ed : Option Int) :
    OverviewMetrics :=
  let totalUsers := st.users.length
  let activeUsers := windowActiveUsers st sd ed
  let totalJourneys := overviewTotalJourneys st sd ed
  let totalComments := overviewTotalComments st sd ed
  { total_users := totalUsers
    active_users := activeUsers
    total_journeys := totalJourneys
    active_journeys := totalJourneys
    total_comments := totalComments
    total_friendships := st.friends.length
    user_growth_rate := jsRound1 (overviewUserGrowthRateRaw st sd ed)
    journey_growth_rate := jsRound1 (overviewJourneyGrowthRateRaw st sd ed)
    engagement_growth_rate := jsRound1 (overviewEngagementGrowthRateRaw st sd ed)
    avg_comments_per_journey := overviewAvgCommentsPerJourney st sd ed
    avg_friends_per_user :=
      if 0 < totalUsers then jsRound2 ((st.friends.length : ℚ) / totalUsers)
      else 0
    engagement_rate :=
      if 0 < totalUsers then jsRound1 ((activeUsers : ℚ) / totalUsers * 100)
      else 0 }

/-- Status tokens counted as active by computeJourneyAnalytics; summing the
`active`, `ongoing`, `PUBLISHED` and `published` entries of the status
group-by equals one filter by this predicate because each journey has
exactly one status string. -/
def isActiveStatus (s : String) : Bool :=
  s == "active" || s == "ongoing" || s == "PUBLISHED" || s == "published"

/-- The journeys response fields the verified properties mention (the
monthly trend and duration histogram are omitted). -/
structure JourneyMetrics where
  total_journeys : Nat
  active_journeys : Nat
  completed_journeys : Nat
  avg_journey_duration : ℚ
  avg_participants_per_journey : ℚ
  total_comments : Nat
  avg_comments_per_journey : ℚ
  most_commented_journeys : List (Nat × Nat)
  popular_destinations : List (String × Nat)
deriving DecidableEq

/-- totalJourneys of the journeys route; its date filter uses the raw
bounds (no end-of-day normalization). -/
def journeysTotalJourneys (st : Store) (sd ed : Option Int) : Nat :=
  countJourneysIn st sd ed

/-- activeJourneys of the journeys route: in-window journeys whose status is
one of the active tokens. -/
def journeysActiveJourneys (st : Store) (sd ed : Option Int) : Nat :=
  ((st.journeys.filter (fun j => inDateRange sd ed j.start_date)).filter
    (fun j => isActiveStatus j.status)).length

/-- completedJourneys of the journeys route: journeys with an `end_date` in
the past, scoped to the window by `start_date`. -/
def journeysCompletedJourneys (st : Store) (sd ed : Option Int) (now : Int) :
    Nat :=
  (st.journeys.filter (fun j =>
    (match j.end_date with
     | some t => decide (t < now)
     | none => false) && inDateRange sd ed j.start_date)).length

/-- mostCommented of the journeys route: group in-window comments by journey
id, sort counts descending, take `limit` (the looked-up display title is
omitted). -/
def journeysMostCommented (st : Store) (sd ed : Option Int) (limit : Nat) :
    List (Nat × Nat) :=
  let cs := st.comments.filter (fun c => inDateRange sd ed c.created_at)
  let grouped := ((cs.map Comment.journeyId).dedup).map
    (fun j => (j, (cs.filter (fun c => c.journeyId == j)).length))
  (sortByKeyDesc (fun p => (p.2 : ℚ)) grouped).take limit

/-- destinations of the journeys route: group in-window journeys by
destination, sort counts descending, take `limit`. -/
def journeysPopularDestinations (st : Store) (sd ed : Option Int)
    (limit : Nat) : List (String × Nat) :=
  let js := st.journeys.filter (fun j => inDateRange sd ed j.start_date)
  let grouped := ((js.map Journey.destination).dedup).map
    (fun d => (d, (js.filter (fun j => j.destination == d)).length))
  (sortByKeyDesc (fun p => (p.2 : ℚ)) grouped).take limit

/-- avgDuration of the journeys route: mean of `(end - start)` in days over
in-window journeys that carry both dates, `0` when there are none. -/
def journeysAvgDuration (st : Store) (sd ed : Option Int) : ℚ :=
  let durations := (st.journeys.filter (fun j =>
      inDateRange sd ed j.start_date && j.end_date.isSome)).map
    (fun j => ((j.end_date.getD 0 : ℚ) - (j.start_date : ℚ)) / 86400000)
  if durations.length = 0 then 0 else durations.sum / durations.length

/-- avgCommentsPerJourney of the journeys route. -/
def journeysAvgCommentsPerJourney (st : Store) (sd ed : Option Int) : ℚ :=
  if 0 < journeysTotalJourneys st sd ed then
    jsRound2 ((countCommentsIn st sd ed : ℚ) / journeysTotalJourneys st sd ed)
  else 0

/-- computeJourneyAnalytics of the journeys route. -/
def computeJourneyAnalytics (st : Store) (sd ed : Option Int) (now : Int)
    (limit : Nat) : JourneyMetrics :=
  { total_journeys := journeysTotalJourneys st sd ed
    active_journeys := journeysActiveJourneys st sd ed
    completed_journeys := journeysCompletedJourneys st sd ed now
    avg_journey_duration := jsRound1 (journeysAvgDuration st sd ed)
    avg_participants_per_journey := 1
    total_comments := countCommentsIn st sd ed
    avg_comments_per_journey := journeysAvgCommentsPerJourney st sd ed
    most_commented_journeys := journeysMostCommented st sd ed limit
    popular_destinations := journeysPopularDestinations st sd ed limit }

/-- The users response fields the verified properties mention (gender
distribution, registration trends and the weekly activity buckets are
omitted). -/
structure UserMetrics where
  total_users : Nat
  active_users : Nat
  new_users : Nat
  avg_journeys_per_user : ℚ
  avg_comments_per_user : ℚ
  avg_friends_per_user : ℚ
  most_active_users : List ActiveEntry
  retention_rate : ℚ
  churn_rate : ℚ
  returning_users : Nat
deriving DecidableEq

/-- Active user ids of the current window in the users route. -/
def usersActiveIds (st : Store) (sd ed : Option Int) : Finset Nat :=
  activeUserIds st sd (ed.map endOfDayMs)

/-- Active ids of the equal-length preceding period in the users route. -/
def usersPreviousActiveIds (st : Store) (s e : Int) : Finset Nat :=
  activeUserIds st (some (previousPeriodStart s e)) (some (previousPeriodEnd s e))

/-- previousPeriodActiveUsers of the users route: the preceding period is
only consulted when both bounds are present; otherwise the current active
count is reused. -/
def usersPreviousCount (st : Store) (sd ed : Option Int) : Nat :=
  match sd, ed with
  | some s, some e => (usersPreviousActiveIds st s e).card
  | _, _ => (usersActiveIds st sd ed).card

/-- returningUsersCount of the users route: previously active users who are
also active now. -/
def usersReturningCount (st : Store) (sd ed : Option Int) : Nat :=
  match sd, ed with
  | some s, some e =>
    (usersPreviousActiveIds st s e ∩ usersActiveIds st (some s) (some e)).card
  | _, _ => (usersActiveIds st sd ed).card

/-- engagementRate of the users route:
`min(100, active / total * 100)` rounded to one decimal, `0` without users. -/
def usersEngagementRate (st : Store) (sd ed : Option Int) : ℚ :=
  if 0 < st.users.length then
    jsRound1 (min (100 : ℚ)
      (((usersActiveIds st sd ed).card : ℚ) / st.users.length * 100))
  else 0

/-- retentionRate of the users route, falling back to the engagement rate
when the previous period has no active users. -/
def usersRetentionRate (st : Store) (sd ed : Option Int) : ℚ :=
  if 0 < usersPreviousCount st sd ed then
    jsRound1 (min (100 : ℚ)
      ((usersReturningCount st sd ed : ℚ) / usersPreviousCount st sd ed * 100))
  else usersEngagementRate st sd ed

/-- churnRate of the users route, falling back to the inverse engagement
rate when the previous period has no active users. -/
def usersChurnRate (st : Store) (sd ed : Option Int) : ℚ :=
  if 0 < usersPreviousCount st sd ed then
    jsRound1 (min (100 : ℚ)
      (((usersPreviousCount st sd ed : ℚ) - usersReturningCount st sd ed)
        / usersPreviousCount st sd ed * 100))
  else 100 - usersEngagementRate st sd ed

/-- newUsers of the users route: creations inside the selected window, or
inside the last 30 days when no window is selected. -/
def usersNewUsers (st : Store) (sd ed : Option Int) (now : Int) : Nat :=
  match sd, ed with
  | none, none =>
    (st.users.filter (fun u => decide (now - 30 * msPerDay ≤ u.createdAt))).length
  | _, _ =>
    (st.users.filter (fun u =>
      inDateRange sd (ed.map endOfDayMs) u.createdAt)).length

/-- computeUserAnalytics of the users route. -/
def computeUserAnalytics (st : Store) (now : Int) (sd ed : Option Int)
    (limit : Nat) : UserMetrics :=
  let totalUsers := st.users.length
  let totalJourneys := countJourneysIn st sd (ed.map endOfDayMs)
  let totalComments := countCommentsIn st sd (ed.map endOfDayMs)
  let totalFriends := st.friends.length
  { total_users := totalUsers
    active_users := (usersActiveIds st sd ed).card
    new_users := usersNewUsers st sd ed now
    avg_journeys_per_user :=
      if 0 < totalUsers then jsRound2 ((totalJourneys : ℚ) / totalUsers) else 0
    avg_comments_per_user :=
      if 0 < totalUsers then jsRound2 ((totalComments : ℚ) / totalUsers) else 0
    avg_friends_per_user :=
      if 0 < totalUsers then jsRound2 ((totalFriends : ℚ) / totalUsers) else 0
    most_active_users := computeMostActiveUsers st sd ed limit
    retention_rate := usersRetentionRate st sd ed
    churn_rate := usersChurnRate st sd ed
    returning_users := usersReturningCount st sd ed }

/-- The friend-request funnel block of the social response. -/
structure SocialActivity where
  total_friend_requests : Nat
  accepted_requests : Nat
  pending_requests : Nat
  acceptance_rate : ℚ
deriving DecidableEq

/-- The social response fields the verified properties mention (influential
users and the rendered network graph are omitted). -/
structure SocialMetrics where
  total_friendships : Nat
  new_friendships : Nat
  avg_friends_per_user : ℚ
  network_density : ℚ
  social_activity : SocialActivity
deriving DecidableEq

/-- totalFriendships of computeSocialAnalytics: filtered by `created_at`
when a date is supplied (raw bounds, no end-of-day normalization). -/
def socialTotalFriendships (st : Store) (sd ed : Option Int) : Nat :=
  countFriendsIn st sd ed

/-- computeSocialAnalytics of the social route. -/
def computeSocialAnalytics (st : Store) (sd ed : Option Int) (now : Int) :
    SocialMetrics :=
  let totalFriendships := socialTotalFriendships st sd ed
  let totalUsers := st.users.length
  let possibleConnections : ℚ :=
    if 1 < totalUsers then (totalUsers : ℚ) * ((totalUsers : ℚ) - 1) / 2 else 1
  { total_friendships := totalFriendships
    new_friendships :=
      (st.friends.filter (fun f =>
        decide (now - 30 * msPerDay ≤ f.created_at))).length
    avg_friends_per_user :=
      if 0 < totalUsers then jsRound2 ((totalFriendships : ℚ) / totalUsers)
      else 0
    network_density := jsRound4 ((totalFriendships : ℚ) / possibleConnections * 100)
    social_activity :=
      match st.joinRequests with
      | none =>
        { total_friend_requests := 0
          accepted_requests := totalFriendships
          pending_requests := 0
          acceptance_rate := 100 }
      | some reqs =>
        let accepted := (reqs.filter (fun r => r.status == "accepted")).length
        { total_friend_requests := reqs.length
          accepted_requests := accepted
          pending_requests := (reqs.filter (fun r => r.status == "pending")).length
          acceptance_rate :=
            if 0 < reqs.length then jsRound1 ((accepted : ℚ) / reqs.length * 100)
            else 0 } }

/-- The `user_dashboard` shape of a legacy `user_analytics` summary record;
`none` models a field missing from the stored document. -/
structure UserDashboardCache where
  total_users : Option Nat
  active_users : Option Nat
  new_users : Option Nat
  avg_journeys_per_user : Option ℚ
  avg_comments_per_user : Option ℚ
  avg_friends_per_user : Option ℚ
  retention_rate : Option ℚ
  churn_rate : Option ℚ
  returning_users : Option Nat
deriving DecidableEq

/-- transformUserAnalyticsFromCache of the users route: each field the
legacy record supplies is passed through, each missing one becomes `0`
(JS `x || 0`), and the most-active list is recomputed live over the whole
history. -/
def transformUserAnalyticsFromCache (st : Store) (c : UserDashboardCache)
    (limit : Nat) : UserMetrics :=
  { total_users := c.total_users.getD 0
    active_users := c.active_users.getD 0
    new_users := c.new_users.getD 0
    avg_journeys_per_user := c.avg_journeys_per_user.getD 0
    avg_comments_per_user := c.avg_comments_per_user.getD 0
    avg_friends_per_user := c.avg_friends_per_user.getD 0
    most_active_users := computeMostActiveUsers st none none limit
    retention_rate := c.retention_rate.getD 0
    churn_rate := c.churn_rate.getD 0
    returning_users := c.returning_users.getD 0 }

/-- The `journey_dashboard` shape of a legacy `journey_analytics_summary`
record. -/
structure JourneyDashboardCache where
  total_requests : Option Nat
  status_accepted : Option Nat
  status_active : Option Nat
  group_completed : Option Nat
  top_destinations : List (String × Nat)
deriving DecidableEq

/-- JS `a || b || 0` over optional counts (0 itself is falsy). -/
def jsOrNat (a b : Option Nat) : Nat :=
  match a with
  | some n => if n = 0 then b.getD 0 else n
  | none => b.getD 0

/-- transformJourneyAnalytics of the journeys route: the legacy summary
lacks engagement and duration data, so those fields are filled with the
fixed placeholder constants 7.1, 1.0, 100 and 3.3 and with empty lists. -/
def transformJourneyAnalytics (c : JourneyDashboardCache) : JourneyMetrics :=
  { total_journeys := c.total_requests.getD 0
    active_journeys := jsOrNat c.status_accepted c.status_active
    completed_journeys := c.group_completed.getD 0
    avg_journey_duration := 71 / 10
    avg_participants_per_journey := 1
    total_comments := 100
    avg_comments_per_journey := 33 / 10
    most_commented_journeys := []
    popular_destinations := c.top_destinations.take 10 }

/-- The `social_network_dashboard` shape of a legacy summary record. -/
structure SocialDashboardCache where
  total_connections : Option Nat
  total_users_in_network : Option Nat
  network_density : Option ℚ
deriving DecidableEq

/-- transformSocialAnalytics of the social route (network_overview and
social_activity parts).  `avg_friends_per_user` models
`total_connections / total_users_in_network || 0` with rational division
(zero denominator yields 0 here; in JS a zero denominator with nonzero
numerator gives a non-finite float, a corner no verified property touches).
The friend-request funnel is backfilled with the fixed placeholder
constants 23, 13, 8 and 56.5. -/
def transformSocialAnalytics (c : SocialDashboardCache) : SocialMetrics :=
  { total_friendships := c.total_connections.getD 0
    new_friendships := 9
    avg_friends_per_user :=
      (c.total_connections.getD 0 : ℚ) / (c.total_users_in_network.getD 0 : ℚ)
    network_density := c.network_density.getD 0 * 100
    social_activity :=
      { total_friend_requests := 23
        accepted_requests := 13
        pending_requests := 8
        acceptance_rate := 565 / 10 } }

/-- A date query parameter as a route receives it: absent, present but
empty, or a non-empty string parsed to an instant. -/
inductive QueryParam where
  | absent
  | empty
  | value (t : Int)
deriving DecidableEq

/-- JS truthiness of the parameter.  The users and overview routes first
rewrite the empty string to null and test `startDate || endDate`; the
journeys and social routes test the raw strings, where the empty string is
falsy — both reduce to this predicate. -/
def QueryParam.truthy : QueryParam → Bool
  | .value _ => true
  | _ => false

/-- The date handed to the compute functions: absent and empty both become
null (all-time). -/
def QueryParam.toDate : QueryParam → Option Int
  | .value t => some t
  | _ => none

/-- The uniform response envelope `{ success, data?, computed?, fromCache? }`
(an absent flag is `false`). -/
structure Envelope (α : Type) where
  success : Bool
  data : Option α
  computed : Bool
  fromCache : Bool
deriving DecidableEq

/-- Failure injection points of the users route: `mostActiveQuery` makes the
aggregation inside computeMostActiveUsers throw (caught there, yielding
`[]`); `usersCountQuery` makes a countDocuments call throw (nothing catches
it below the route handler). -/
structure StoreFaults where
  mostActiveQuery : Bool
  usersCountQuery : Bool
deriving DecidableEq

/-- A healthy store: no query fails. -/
def noFaults : StoreFaults := ⟨false, false⟩

/-- computeMostActiveUsers with its internal try/catch: a failing
aggregation is swallowed and replaced by the empty list. -/
def computeMostActiveUsersF (st : Store) (f : StoreFaults) (sd ed : Option Int)
    (limit : Nat) : List ActiveEntry :=
  if f.mostActiveQuery then [] else computeMostActiveUsers st sd ed limit

/-- computeUserAnalytics under fault injection: a failing countDocuments
propagates as an error; a failing most-active aggregation is absorbed. -/
def computeUserAnalyticsF (st : Store) (f : StoreFaults) (now : Int)
    (sd ed : Option Int) (limit : Nat) : Except String UserMetrics :=
  if f.usersCountQuery then Except.error "user count query failed"
  else Except.ok
    { computeUserAnalytics st now sd ed limit with
      most_active_users := computeMostActiveUsersF st f sd ed limit }

/-- transformUserAnalyticsFromCache under fault injection (it recomputes the
most-active list, whose failing aggregation is absorbed). -/
def transformUserAnalyticsFromCacheF (st : Store) (f : StoreFaults)
    (c : UserDashboardCache) (limit : Nat) : UserMetrics :=
  { transformUserAnalyticsFromCache st c limit with
    most_active_users := computeMostActiveUsersF st f none none limit }

/-- GET of the users route: a windowed request always recomputes; a bare
all-time request serves the newest cached summary when one exists; an
uncaught error becomes the generic failure envelope. -/
def usersGETF (st : Store) (f : StoreFaults) (now : Int)
    (cache : Option UserDashboardCache) (sd ed : QueryParam) (limit : Nat) :
    Envelope UserMetrics :=
  if sd.truthy || ed.truthy then
    match computeUserAnalyticsF st f now sd.toDate ed.toDate limit with
    | Except.ok d => ⟨true, some d, true, false⟩
    | Except.error _ => ⟨false, none, false, false⟩
  else
    match cache with
    | some c =>
      ⟨true, some (transformUserAnalyticsFromCacheF st f c limit), false, true⟩
    | none =>
      match computeUserAnalyticsF st f now none none limit with
      | Except.ok d => ⟨true, some d, true, false⟩
      | Except.error _ => ⟨false, none, false, false⟩

/-- GET of the users route on a healthy store. -/
def usersGET (st : Store) (now : Int) (cache : Option UserDashboardCache)
    (sd ed : QueryParam) (limit : Nat) : Envelope UserMetrics :=
  usersGETF st noFaults now cache sd ed limit

/-- GET of the journeys route (its cached branch sets neither `computed` nor
`fromCache`). -/
def journeysGET (st : Store) (now : Int) (cache : Option JourneyDashboardCache)
    (sd ed : QueryParam) (limit : Nat) : Envelope JourneyMetrics :=
  if sd.truthy || ed.truthy then
    ⟨true, some (computeJourneyAnalytics st sd.toDate ed.toDate now limit),
      true, false⟩
  else
    match cache with
    | some c => ⟨true, some (transformJourneyAnalytics c), false, false⟩
    | none =>
      ⟨true, some (computeJourneyAnalytics st none none now limit), true, false⟩

/-- Result of handleCustomDateSubmit of the DateRangePicker: either the
range is rejected client-side (the InvalidRange case — no request leaves
the component) or a normalized window is handed to onDateChange. -/
inductive CustomSubmitResult where
  | rejected
  | applied (startMs endMs : Int)
deriving DecidableEq

/-- handleCustomDateSubmit over calendar dates given as day numbers: the
start becomes 00:00:00.000 of its day, the end 23:59:59 of its day, and the
submit is rejected when start > end (or when either date is missing). -/
def handleCustomDateSubmit (sd ed : Option Nat) : CustomSubmitResult :=
  match sd, ed with
  | some s, some e =>
    let start : Int := (s : Int) * msPerDay
    let endMs : Int := (e : Int) * msPerDay + 86399000
    if endMs < start then .rejected else .applied start endMs
  | _, _ => .rejected

/-- The window the custom flow hands to onDateChange, if any. -/
def customFlowRequest (sd ed : Option Nat) : Option (Int × Int) :=
  match handleCustomDateSubmit sd ed with
  | .rejected => none
  | .applied s e => some (s, e)

/-- End-to-end custom flow against the users route: when the submit is
rejected no request is made, so no Entity Store query is ever issued. -/
def customFlowResponse (st : Store) (now : Int)
    (cache : Option UserDashboardCache) (limit : Nat) (sd ed : Option Nat) :
    Option (Envelope UserMetrics) :=
  (customFlowRequest sd ed).map
    (fun w => usersGET st now cache (.value w.1) (.value w.2) limit)

/-- A small concrete store snapshot used for evaluations: two users, an
active and a draft journey on day 1, one comment on day 1, one friendship. -/
def demoStore : Store :=
  { users := [⟨1, 0⟩, ⟨2, 0⟩]
    journeys := [⟨1, 86400000, some 172800000, "active", "Paris"⟩,
                 ⟨2, 86400000, none, "draft", "Rome"⟩]
    comments := [⟨1, 7, 86400000⟩]
    friends := [⟨1, 2, 0⟩]
    joinRequests := none }

/-- A store whose single journey starts exactly at the boundary instant
used as window start in the boundary evaluations. -/
def boundaryStore : Store :=
  { users := [⟨1, 0⟩]
    journeys := [⟨1, 172800000, none, "draft", "Oslo"⟩]
    comments := []
    friends := []
    joinRequests := none }

/-- A store holding one friendship created at instant 0 and nothing else. -/
def friendOnlyStore : Store :=
  { users := []
    journeys := []
    comments := []
    friends := [⟨1, 2, 0⟩]
    joinRequests := none }

/-- A legacy user summary with every field missing. -/
def emptyUserCache : UserDashboardCache :=
  ⟨none, none, none, none, none, none, none, none, none⟩

/-- A legacy journey summary with every field missing. -/
def emptyJourneyCache : JourneyDashboardCache := ⟨none, none, none, none, []⟩

/-- A legacy social summary with every field missing. -/
def emptySocialCache : SocialDashboardCache := ⟨none, none, none⟩

theorem computeUserAnalyticsF_noFaults (st : Store) (now : Int)
    (sd ed : Option Int) (limit : Nat) :
    computeUserAnalyticsF st noFaults now sd ed limit =
      Except.ok (computeUserAnalytics st now sd ed limit) := rfl

theorem transformUserAnalyticsFromCacheF_noFaults (st : Store)
    (c : UserDashboardCache) (limit : Nat) :
    transformUserAnalyticsFromCacheF st noFaults c limit =
      transformUserAnalyticsFromCache st c limit := rfl

theorem jsRound1_zero : jsRound1 0 = 0 := by
  unfold jsRound1
  norm_num

theorem jsRound1_of_nonneg (x : ℚ) (hx : 0 ≤ x) :
    jsRound1 x = (⌊x * 10 + 1/2⌋ : ℚ) / 10 := by
  unfold jsRound1
  rw [if_neg (not_lt.mpr hx)]

theorem jsRound1_sum_compl (x : ℚ) (h0 : 0 ≤ x) (h1 : x ≤ 100) :
    |jsRound1 x + jsRound1 (100 - x) - 100| ≤ 1/10 := by
  rw [jsRound1_of_nonneg x h0, jsRound1_of_nonneg (100 - x) (by linarith)]
  have fa := Int.floor_le (x * 10 + 1/2)
  have fa2 := Int.lt_floor_add_one (x * 10 + 1/2)
  have fb := Int.floor_le ((100 - x) * 10 + 1/2)
  have fb2 := Int.lt_floor_add_one ((100 - x) * 10 + 1/2)
  set a := ⌊x * 10 + 1/2⌋ with ha
  set b := ⌊(100 - x) * 10 + 1/2⌋ with hb
  have hub : (a : ℚ) + b ≤ 1001 := by linarith
  have h999 : (999 : ℤ) < a + b := by
    have : (999 : ℚ) < a + b := by linarith
    exact_mod_cast this
  have h1000 : (1000 : ℚ) ≤ (a : ℚ) + b := by
    have : (1000 : ℤ) ≤ a + b := by omega
    exact_mod_cast this
  rw [abs_le]
  constructor <;> linarith

theorem jsRound2_close (x : ℚ) (hx : 0 ≤ x) : |jsRound2 x - x| ≤ 1/100 := by
  unfold jsRound2
  rw [if_neg (not_lt.mpr hx)]
  have fa := Int.floor_le (x * 100 + 1/2)
  have fa2 := Int.lt_floor_add_one (x * 100 + 1/2)
  rw [abs_le]
  constructor <;> linarith

theorem le_endOfDayMs (t : Int) : t ≤ endOfDayMs t := by
  unfold endOfDayMs msPerDay
  omega

theorem ratio_mul_hundred_le (a b : Nat) (hab : a ≤ b) (hb : 0 < b) :
    (a : ℚ) / b * 100 ≤ 100 := by
  have hb1 : (0 : ℚ) < b := by exact_mod_cast hb
  have hab1 : (a : ℚ) ≤ b := by exact_mod_cast hab
  rw [div_mul_eq_mul_div, div_le_iff₀ hb1]
  linarith

/-- C1: a request whose `startDate` or `endDate` is present and non-empty is
always answered by the live computation, marked `computed: true`, never from
a cached summary (the response does not depend on the cache at all); a
request where both are absent or empty is treated as all-time, succeeds, and
only there may the cached summary be served. -/
theorem C1_windowed_requests_take_live_path (st : Store) (now : Int)
    (cacheU : Option UserDashboardCache) (cacheJ : Option JourneyDashboardCache)
    (limU limJ : Nat) (sd ed : QueryParam) :
    ((sd.truthy || ed.truthy) = true →
      usersGET st now cacheU sd ed limU =
        ⟨true, some (computeUserAnalytics st now sd.toDate ed.toDate limU),
          true, false⟩ ∧
      journeysGET st now cacheJ sd ed limJ =
        ⟨true, some (computeJourneyAnalytics st sd.toDate ed.toDate now limJ),
          true, false⟩) ∧
    ((sd.truthy || ed.truthy) = false →
      sd.toDate = none ∧ ed.toDate = none ∧
      (usersGET st now cacheU sd ed limU).success = true ∧
      (journeysGET st now cacheJ sd ed limJ).success = true ∧
      (cacheU = none →
        usersGET st now cacheU sd ed limU =
          ⟨true, some (computeUserAnalytics st now none none limU), true, false⟩) ∧
      (∀ c, cacheU = some c →
        usersGET st now cacheU sd ed limU =
          ⟨true, some (transformUserAnalyticsFromCache st c limU), false, true⟩)) := by
  constructor
  · intro h
    constructor
    · simp [usersGET, usersGETF, h, computeUserAnalyticsF_noFaults]
    · simp [journeysGET, h]
  · intro h
    have hsd : sd.toDate = none := by
      cases sd <;> simp_all [QueryParam.truthy, QueryParam.toDate]
    have hed : ed.toDate = none := by
      cases ed <;> simp_all [QueryParam.truthy, QueryParam.toDate]
    refine ⟨hsd, hed, ?_, ?_, ?_, ?_⟩
    · cases cacheU <;>
        simp [usersGET, usersGETF, h, computeUserAnalyticsF_noFaults]
    · cases cacheJ <;> simp [journeysGET, h]
    · intro hc
      subst hc
      simp [usersGET, usersGETF, h, computeUserAnalyticsF_noFaults]
    · intro c hc
      subst hc
      simp [usersGET, usersGETF, h, transformUserAnalyticsFromCacheF_noFaults]

/-- C1 witness: concrete windowed and all-time requests against the demo
store, with and without a cached summary. -/
theorem C1_windowed_requests_take_live_path_witness :
    usersGET demoStore 0 (some emptyUserCache) (.value 0) (.value 86400000) 5 =
      ⟨true, some (computeUserAnalytics demoStore 0 (some 0) (some 86400000) 5),
        true, false⟩ ∧
    usersGET demoStore 0 none .absent .empty 5 =
      ⟨true, some (computeUserAnalytics demoStore 0 none none 5), true, false⟩ ∧
    usersGET demoStore 0 (some emptyUserCache) .empty .absent 5 =
      ⟨true, some (transformUserAnalyticsFromCache demoStore emptyUserCache 5),
        false, true⟩ :=
  ⟨((C1_windowed_requests_take_live_path demoStore 0 (some emptyUserCache) none
      5 5 (.value 0) (.value 86400000)).1 (by decide)).1,
   ((C1_windowed_requests_take_live_path demoStore 0 none none
      5 5 .absent .empty).2 (by decide)).2.2.2.2.1 rfl,
   ((C1_windowed_requests_take_live_path demoStore 0 (some emptyUserCache) none
      5 5 .empty .absent).2 (by decide)).2.2.2.2.2 emptyUserCache rfl⟩

/-- C2: a custom range whose start date lies strictly after its end date is
rejected by handleCustomDateSubmit, so no request and hence no Entity Store
query is ever issued for it. -/
theorem C2_invalid_range_rejected_before_query (s e : Nat) (h : e < s) :
    handleCustomDateSubmit (some s) (some e) = CustomSubmitResult.rejected ∧
    customFlowRequest (some s) (some e) = none ∧
    ∀ (st : Store) (now : Int) (cache : Option UserDashboardCache) (limit : Nat),
      customFlowResponse st now cache limit (some s) (some e) = none := by
  have hs : (e : Int) + 1 ≤ (s : Int) := by exact_mod_cast h
  have hlt : (e : Int) * msPerDay + 86399000 < (s : Int) * msPerDay := by
    unfold msPerDay
    have h2 : ((e : Int) + 1) * 86400000 ≤ (s : Int) * 86400000 :=
      mul_le_mul_of_nonneg_right hs (by norm_num)
    linarith
  have hsubmit : handleCustomDateSubmit (some s) (some e) =
      CustomSubmitResult.rejected := by
    simp only [handleCustomDateSubmit]
    rw [if_pos hlt]
  refine ⟨hsubmit, ?_, ?_⟩
  · unfold customFlowRequest
    rw [hsubmit]
  · intro st now cache limit
    unfold customFlowResponse customFlowRequest
    rw [hsubmit]
    rfl

/-- C2 witness: day 5 as start and day 3 as end are rejected and produce no
request. -/
theorem C2_invalid_range_rejected_before_query_witness :
    handleCustomDateSubmit (some 5) (some 3) = CustomSubmitResult.rejected ∧
    customFlowRequest (some 5) (some 3) = none ∧
    ∀ (st : Store) (now : Int) (cache : Option UserDashboardCache) (limit : Nat),
      customFlowResponse st now cache limit (some 5) (some 3) = none :=
  C2_invalid_range_rejected_before_query 5 3 (by decide)

/-- C3: for a window with both bounds, whenever the preceding window has a
positive active-user count the reported retention and churn rates sum to 100
up to the one-decimal rounding (within 1/10); whenever that count is zero
the retention rate equals the engagement rate. -/
theorem C3_retention_churn_complementarity (st : Store) (now : Int)
    (limit : Nat) (s e : Int) :
    (0 < usersPreviousCount st (some s) (some e) →
      |(computeUserAnalytics st now (some s) (some e) limit).retention_rate +
        (computeUserAnalytics st now (some s) (some e) limit).churn_rate - 100|
        ≤ 1/10) ∧
    (usersPreviousCount st (some s) (some e) = 0 →
      (computeUserAnalytics st now (some s) (some e) limit).retention_rate =
        usersEngagementRate st (some s) (some e)) := by
  constructor
  · intro hp
    show |usersRetentionRate st (some s) (some e) +
      usersChurnRate st (some s) (some e) - 100| ≤ 1/10
    have hrp : usersReturningCount st (some s) (some e) ≤
        usersPreviousCount st (some s) (some e) := by
      show (usersPreviousActiveIds st s e ∩
        usersActiveIds st (some s) (some e)).card ≤
        (usersPreviousActiveIds st s e).card
      exact Finset.card_le_card Finset.inter_subset_left
    unfold usersRetentionRate usersChurnRate
    set p := usersPreviousCount st (some s) (some e) with hpdef
    set r := usersReturningCount st (some s) (some e) with hrdef
    have hp1 : (0 : ℚ) < p := by exact_mod_cast hp
    have hx0 : (0 : ℚ) ≤ (r : ℚ) / p * 100 := by positivity
    have hx1 : (r : ℚ) / p * 100 ≤ 100 := ratio_mul_hundred_le r p hrp hp
    rw [if_pos hp, if_pos hp, min_eq_right hx1]
    have hpne : (p : ℚ) ≠ 0 := ne_of_gt hp1
    have hc : ((p : ℚ) - r) / p * 100 = 100 - (r : ℚ) / p * 100 := by
      field_simp
      ring
    rw [hc, min_eq_right (by linarith)]
    exact jsRound1_sum_compl _ hx0 hx1
  · intro h0
    show usersRetentionRate st (some s) (some e) =
      usersEngagementRate st (some s) (some e)
    unfold usersRetentionRate
    rw [h0]
    norm_num

/-- C3 witness: a window whose preceding period has two active users, and a
later window whose preceding period has none. -/
theorem C3_retention_churn_complementarity_witness :
    |(computeUserAnalytics demoStore 0 (some 172800000) (some 259200000)
        5).retention_rate +
      (computeUserAnalytics demoStore 0 (some 172800000) (some 259200000)
        5).churn_rate - 100| ≤ 1/10 ∧
    (computeUserAnalytics demoStore 0 (some 864000000) (some 950400000)
        5).retention_rate =
      usersEngagementRate demoStore (some 864000000) (some 950400000) :=
  ⟨(C3_retention_churn_complementarity demoStore 0 5 172800000 259200000).1
      (by decide),
   (C3_retention_churn_complementarity demoStore 0 5 864000000 950400000).2
      (by decide)⟩

/-- C4: each overview growth rate is exactly 0 when the window misses a
bound, exactly 0 when the corresponding preceding-window metric is 0, and
otherwise equals `((M - M_prev) / M_prev) * 100` before the one-decimal
rounding applied by the response; the division is only ever taken under the
positivity guard. -/
theorem C4_growth_rates_guarded (st : Store) :
    (∀ ed : Option Int,
      (computeOverviewAnalytics st none ed).user_growth_rate = 0 ∧
      (computeOverviewAnalytics st none ed).journey_growth_rate = 0 ∧
      (computeOverviewAnalytics st none ed).engagement_growth_rate = 0) ∧
    (∀ sd : Option Int,
      (computeOverviewAnalytics st sd none).user_growth_rate = 0 ∧
      (computeOverviewAnalytics st sd none).journey_growth_rate = 0 ∧
      (computeOverviewAnalytics st sd none).engagement_growth_rate = 0) ∧
    (∀ s e : Int,
      ((previousActiveUsers st s e = 0 →
         (computeOverviewAnalytics st (some s) (some e)).user_growth_rate = 0) ∧
       (0 < previousActiveUsers st s e →
         overviewUserGrowthRateRaw st (some s) (some e) =
           ((windowActiveUsers st (some s) (some e) : ℚ) -
             (previousActiveUsers st s e : ℚ)) /
             (previousActiveUsers st s e : ℚ) * 100 ∧
         (computeOverviewAnalytics st (some s) (some e)).user_growth_rate =
           jsRound1 (overviewUserGrowthRateRaw st (some s) (some e)))) ∧
      ((previousJourneys st s e = 0 →
         (computeOverviewAnalytics st (some s) (some e)).journey_growth_rate = 0) ∧
       (0 < previousJourneys st s e →
         overviewJourneyGrowthRateRaw st (some s) (some e) =
           ((overviewTotalJourneys st (some s) (some e) : ℚ) -
             (previousJourneys st s e : ℚ)) /
             (previousJourneys st s e : ℚ) * 100 ∧
         (computeOverviewAnalytics st (some s) (some e)).journey_growth_rate =
           jsRound1 (overviewJourneyGrowthRateRaw st (some s) (some e)))) ∧
      ((previousComments st s e + previousJourneys st s e = 0 →
         (computeOverviewAnalytics st (some s) (some e)).engagement_growth_rate
           = 0) ∧
       (0 < previousComments st s e + previousJourneys st s e →
         overviewEngagementGrowthRateRaw st (some s) (some e) =
           (((overviewTotalComments st (some s) (some e) +
               overviewTotalJourneys st (some s) (some e) : Nat) : ℚ) -
             ((previousComments st s e + previousJourneys st s e : Nat) : ℚ)) /
             ((previousComments st s e + previousJourneys st s e : Nat) : ℚ)
             * 100 ∧
         (computeOverviewAnalytics st (some s) (some e)).engagement_growth_rate
           = jsRound1
               (overviewEngagementGrowthRateRaw st (some s) (some e))))) := by
  refine ⟨?_, ?_, ?_⟩
  · intro ed
    have h1 : overviewUserGrowthRateRaw st none ed = 0 := by cases ed <;> rfl
    have h2 : overviewJourneyGrowthRateRaw st none ed = 0 := by cases ed <;> rfl
    have h3 : overviewEngagementGrowthRateRaw st none ed = 0 := by
      cases ed <;> rfl
    refine ⟨?_, ?_, ?_⟩
    · show jsRound1 (overviewUserGrowthRateRaw st none ed) = 0
      rw [h1, jsRound1_zero]
    · show jsRound1 (overviewJourneyGrowthRateRaw st none ed) = 0
      rw [h2, jsRound1_zero]
    · show jsRound1 (overviewEngagementGrowthRateRaw st none ed) = 0
      rw [h3, jsRound1_zero]
  · intro sd
    have h1 : overviewUserGrowthRateRaw st sd none = 0 := by cases sd <;> rfl
    have h2 : overviewJourneyGrowthRateRaw st sd none = 0 := by cases sd <;> rfl
    have h3 : overviewEngagementGrowthRateRaw st sd none = 0 := by
      cases sd <;> rfl
    refine ⟨?_, ?_, ?_⟩
    · show jsRound1 (overviewUserGrowthRateRaw st sd none) = 0
      rw [h1, jsRound1_zero]
    · show jsRound1 (overviewJourneyGrowthRateRaw st sd none) = 0
      rw [h2, jsRound1_zero]
    · show jsRound1 (overviewEngagementGrowthRateRaw st sd none) = 0
      rw [h3, jsRound1_zero]
  · intro s e
    refine ⟨⟨?_, ?_⟩, ⟨?_, ?_⟩, ⟨?_, ?_⟩⟩
    · intro h
      show jsRound1 (overviewUserGrowthRateRaw st (some s) (some e)) = 0
      simp only [overviewUserGrowthRateRaw]
      rw [h]
      simp [jsRound1_zero]
    · intro h
      refine ⟨?_, rfl⟩
      simp only [overviewUserGrowthRateRaw]
      rw [if_pos h]
    · intro h
      show jsRound1 (overviewJourneyGrowthRateRaw st (some s) (some e)) = 0
      simp only [overviewJourneyGrowthRateRaw]
      rw [h]
      simp [jsRound1_zero]
    · intro h
      refine ⟨?_, rfl⟩
      simp only [overviewJourneyGrowthRateRaw]
      rw [if_pos h]
    · intro h
      show jsRound1 (overviewEngagementGrowthRateRaw st (some s) (some e)) = 0
      simp only [overviewEngagementGrowthRateRaw]
      rw [h]
      simp [jsRound1_zero]
    · intro h
      refine ⟨?_, rfl⟩
      simp only [overviewEngagementGrowthRateRaw]
      rw [if_pos h]

/-- C4 witness: a window whose preceding period carries activity (positive
previous metrics) and the same store with an open-ended window. -/
theorem C4_growth_rates_guarded_witness :
    overviewJourneyGrowthRateRaw demoStore (some 172800000) (some 259200000) =
      ((overviewTotalJourneys demoStore (some 172800000) (some 259200000) : ℚ) -
        (previousJourneys demoStore 172800000 259200000 : ℚ)) /
        (previousJourneys demoStore 172800000 259200000 : ℚ) * 100 ∧
    (computeOverviewAnalytics demoStore (some 172800000)
        (some 259200000)).journey_growth_rate =
      jsRound1 (overviewJourneyGrowthRateRaw demoStore (some 172800000)
        (some 259200000)) ∧
    (computeOverviewAnalytics demoStore none (some 259200000)).user_growth_rate
      = 0 :=
  ⟨((C4_growth_rates_guarded demoStore).2.2 172800000 259200000).2.1.2
      (by decide) |>.1,
   ((C4_growth_rates_guarded demoStore).2.2 172800000 259200000).2.1.2
      (by decide) |>.2,
   ((C4_growth_rates_guarded demoStore).1 (some 259200000)).1⟩

/-- C5: in both the journeys and the overview domain the reported
`avg_comments_per_journey` is 0 when the window holds no journeys and is
within 1/100 of `total_comments / total_journeys` otherwise. -/
theorem C5_avg_comments_per_journey_ratio (st : Store) (sd ed : Option Int)
    (now : Int) (limit : Nat) :
    ((journeysTotalJourneys st sd ed = 0 →
       (computeJourneyAnalytics st sd ed now limit).avg_comments_per_journey
         = 0) ∧
     (0 < journeysTotalJourneys st sd ed →
       |(computeJourneyAnalytics st sd ed now limit).avg_comments_per_journey -
         (countCommentsIn st sd ed : ℚ) / (journeysTotalJourneys st sd ed : ℚ)|
         ≤ 1/100)) ∧
    ((overviewTotalJourneys st sd ed = 0 →
       (computeOverviewAnalytics st sd ed).avg_comments_per_journey = 0) ∧
     (0 < overviewTotalJourneys st sd ed →
       |(computeOverviewAnalytics st sd ed).avg_comments_per_journey -
         (overviewTotalComments st sd ed : ℚ) /
           (overviewTotalJourneys st sd ed : ℚ)| ≤ 1/100)) := by
  constructor
  · constructor
    · intro h0
      show journeysAvgCommentsPerJourney st sd ed = 0
      unfold journeysAvgCommentsPerJourney
      rw [h0]
      norm_num
    · intro hpos
      show |journeysAvgCommentsPerJourney st sd ed -
        (countCommentsIn st sd ed : ℚ) / (journeysTotalJourneys st sd ed : ℚ)|
        ≤ 1/100
      unfold journeysAvgCommentsPerJourney
      rw [if_pos hpos]
      exact jsRound2_close _ (by positivity)
  · constructor
    · intro h0
      show overviewAvgCommentsPerJourney st sd ed = 0
      unfold overviewAvgCommentsPerJourney
      rw [h0]
      norm_num
    · intro hpos
      show |overviewAvgCommentsPerJourney st sd ed -
        (overviewTotalComments st sd ed : ℚ) /
          (overviewTotalJourneys st sd ed : ℚ)| ≤ 1/100
      unfold overviewAvgCommentsPerJourney
      rw [if_pos hpos]
      exact jsRound2_close _ (by positivity)

/-- C5 witness: the demo store with a populated day-1 window, and the store
with no journeys at all. -/
theorem C5_avg_comments_per_journey_ratio_witness :
    |(computeJourneyAnalytics demoStore (some 0) (some 86400000) 0
        5).avg_comments_per_journey -
      (countCommentsIn demoStore (some 0) (some 86400000) : ℚ) /
        (journeysTotalJourneys demoStore (some 0) (some 86400000) : ℚ)|
      ≤ 1/100 ∧
    (computeJourneyAnalytics friendOnlyStore none none 0
        5).avg_comments_per_journey = 0 ∧
    |(computeOverviewAnalytics demoStore (some 0)
        (some 86400000)).avg_comments_per_journey -
      (overviewTotalComments demoStore (some 0) (some 86400000) : ℚ) /
        (overviewTotalJourneys demoStore (some 0) (some 86400000) : ℚ)|
      ≤ 1/100 :=
  ⟨(C5_avg_comments_per_journey_ratio demoStore (some 0) (some 86400000) 0
      5).1.2 (by decide),
   (C5_avg_comments_per_journey_ratio friendOnlyStore none none 0 5).1.1
      (by decide),
   (C5_avg_comments_per_journey_ratio demoStore (some 0) (some 86400000) 0
      5).2.2 (by decide)⟩

/-- C6 counterexample: the social domain filters `total_friendships` by the
window, so the same snapshot reports different totals for the all-time
window and for a window that excludes the friendship. -/
theorem C6_counterexample_social_friendships_vary :
    (computeSocialAnalytics friendOnlyStore none none 0).total_friendships ≠
      (computeSocialAnalytics friendOnlyStore (some 100) (some 200)
        0).total_friendships := by decide

/-- C6 amended: `total_users` is window-invariant in the users and overview
domains and `total_friendships` is window-invariant in the overview domain
(and in the users-route average denominator data), but the social domain
reports the count of friendships created inside the window. -/
theorem C6_amended_unfiltered_totals (st : Store) (now : Int) (limit : Nat)
    (sd1 ed1 sd2 ed2 : Option Int) :
    (computeUserAnalytics st now sd1 ed1 limit).total_users =
      (computeUserAnalytics st now sd2 ed2 limit).total_users ∧
    (computeOverviewAnalytics st sd1 ed1).total_users =
      (computeOverviewAnalytics st sd2 ed2).total_users ∧
    (computeOverviewAnalytics st sd1 ed1).total_friendships =
      (computeOverviewAnalytics st sd2 ed2).total_friendships ∧
    (computeSocialAnalytics st sd1 ed1 now).total_friendships =
      countFriendsIn st sd1 ed1 :=
  ⟨rfl, rfl, rfl, rfl⟩

/-- C7 counterexample: when the most-active aggregation fails the users
route still answers `success: true` with the rest of the metrics computed
live and the most-active sub-metric silently replaced by the empty default,
instead of the generic failure contract. -/
theorem C7_counterexample_partial_data_under_success :
    (usersGETF demoStore ⟨true, false⟩ 0 none (.value 0) (.value 86400000)
      5).success = true ∧
    ((usersGETF demoStore ⟨true, false⟩ 0 none (.value 0) (.value 86400000)
      5).data.map (fun m => m.most_active_users)) = some [] ∧
    ((usersGETF demoStore ⟨true, false⟩ 0 none (.value 0) (.value 86400000)
      5).data.map (fun m => m.total_users)) = some 2 := by decide

/-- C7 amended: a failing read that nothing catches below the route handler
does produce the generic failure envelope with no data, but a failing read
inside a helper with its own try/catch (the most-active aggregation, and
likewise the network-graph and trend helpers) is absorbed: the response
still reports success and carries the empty default in that sub-metric. -/
theorem C7_amended_failure_propagation (st : Store) (f : StoreFaults)
    (now : Int) (cache : Option UserDashboardCache) (sd ed : QueryParam)
    (limit : Nat) (h : (sd.truthy || ed.truthy) = true) :
    (f.usersCountQuery = true →
      usersGETF st f now cache sd ed limit = ⟨false, none, false, false⟩) ∧
    (f.usersCountQuery = false →
      usersGETF st f now cache sd ed limit =
        ⟨true,
          some { computeUserAnalytics st now sd.toDate ed.toDate limit with
                 most_active_users :=
                   computeMostActiveUsersF st f sd.toDate ed.toDate limit },
          true, false⟩) := by
  constructor <;> intro hf <;> simp [usersGETF, computeUserAnalyticsF, h, hf]

/-- C7 amended witness: the demo store with an uncaught failing count and
with a caught failing most-active aggregation. -/
theorem C7_amended_failure_propagation_witness :
    usersGETF demoStore ⟨false, true⟩ 0 none (.value 0) (.value 86400000) 5 =
      ⟨false, none, false, false⟩ ∧
    usersGETF demoStore ⟨true, false⟩ 0 none (.value 0) (.value 86400000) 5 =
      ⟨true,
        some { computeUserAnalytics demoStore 0 (some 0) (some 86400000) 5 with
               most_active_users :=
                 computeMostActiveUsersF demoStore ⟨true, false⟩ (some 0)
                   (some 86400000) 5 },
        true, false⟩ :=
  ⟨(C7_amended_failure_propagation demoStore ⟨false, true⟩ 0 none (.value 0)
      (.value 86400000) 5 (by decide)).1 rfl,
   (C7_amended_failure_propagation demoStore ⟨true, false⟩ 0 none (.value 0)
      (.value 86400000) 5 (by decide)).2 rfl⟩

/-- C8 counterexample: the legacy journey transform backfills the
underivable duration and engagement fields with the fixed nonzero constants
7.1 and 100 (and the legacy social transform uses 9), not with 0 or empty
defaults. -/
theorem C8_counterexample_nonzero_placeholders :
    (transformJourneyAnalytics emptyJourneyCache).avg_journey_duration =
      71/10 ∧
    ((71 : ℚ)/10 ≠ 0) ∧
    (transformJourneyAnalytics emptyJourneyCache).total_comments = 100 ∧
    (transformSocialAnalytics emptySocialCache).new_friendships = 9 :=
  ⟨rfl, by norm_num, rfl, rfl⟩

/-- C8 amended: every legacy transform is total and produces the live
output schema; the users transform backfills each missing field with 0 and
recomputes the most-active list, and the journeys and social transforms
backfill derivable fields with 0 or pass them through but fill the
underivable ones with the fixed placeholder constants 7.1, 1, 100, 3.3, 9,
23, 13, 8 and 56.5 and with empty lists. -/
theorem C8_amended_legacy_transform_backfill (st : Store) (limit : Nat)
    (uc : UserDashboardCache) (jc : JourneyDashboardCache)
    (sc : SocialDashboardCache) :
    ((uc.total_users = none →
       (transformUserAnalyticsFromCache st uc limit).total_users = 0) ∧
     (uc.active_users = none →
       (transformUserAnalyticsFromCache st uc limit).active_users = 0) ∧
     (uc.new_users = none →
       (transformUserAnalyticsFromCache st uc limit).new_users = 0) ∧
     (uc.avg_journeys_per_user = none →
       (transformUserAnalyticsFromCache st uc limit).avg_journeys_per_user
         = 0) ∧
     (uc.avg_comments_per_user = none →
       (transformUserAnalyticsFromCache st uc limit).avg_comments_per_user
         = 0) ∧
     (uc.avg_friends_per_user = none →
       (transformUserAnalyticsFromCache st uc limit).avg_friends_per_user
         = 0) ∧
     (uc.retention_rate = none →
       (transformUserAnalyticsFromCache st uc limit).retention_rate = 0) ∧
     (uc.churn_rate = none →
       (transformUserAnalyticsFromCache st uc limit).churn_rate = 0) ∧
     (uc.returning_users = none →
       (transformUserAnalyticsFromCache st uc limit).returning_users = 0) ∧
     (transformUserAnalyticsFromCache st uc limit).most_active_users =
       computeMostActiveUsers st none none limit) ∧
    ((jc.total_requests = none →
       (transformJourneyAnalytics jc).total_journeys = 0) ∧
     (transformJourneyAnalytics jc).most_commented_journeys = [] ∧
     (transformJourneyAnalytics jc).popular_destinations =
       jc.top_destinations.take 10 ∧
     (transformJourneyAnalytics jc).avg_journey_duration = 71/10 ∧
     (transformJourneyAnalytics jc).avg_participants_per_journey = 1 ∧
     (transformJourneyAnalytics jc).total_comments = 100 ∧
     (transformJourneyAnalytics jc).avg_comments_per_journey = 33/10) ∧
    ((sc.total_connections = none →
       (transformSocialAnalytics sc).total_friendships = 0) ∧
     (transformSocialAnalytics sc).new_friendships = 9 ∧
     (transformSocialAnalytics sc).social_activity = ⟨23, 13, 8, 565/10⟩) := by
  refine ⟨⟨?_, ?_, ?_, ?_, ?_, ?_, ?_, ?_, ?_, rfl⟩,
    ⟨?_, rfl, rfl, rfl, rfl, rfl, rfl⟩, ⟨?_, rfl, rfl⟩⟩ <;>
    (intro h;
     simp [transformUserAnalyticsFromCache, transformJourneyAnalytics,
       transformSocialAnalytics, h])

/-- C8 amended witness: the all-missing legacy records from each domain. -/
theorem C8_amended_legacy_transform_backfill_witness :
    (transformUserAnalyticsFromCache demoStore emptyUserCache 5).total_users
      = 0 ∧
    (transformUserAnalyticsFromCache demoStore emptyUserCache
      5).retention_rate = 0 ∧
    (transformJourneyAnalytics emptyJourneyCache).total_journeys = 0 ∧
    (transformSocialAnalytics emptySocialCache).total_friendships = 0 :=
  ⟨(C8_amended_legacy_transform_backfill demoStore 5 emptyUserCache
      emptyJourneyCache emptySocialCache).1.1 rfl,
   (C8_amended_legacy_transform_backfill demoStore 5 emptyUserCache
      emptyJourneyCache emptySocialCache).1.2.2.2.2.2.2.1 rfl,
   (C8_amended_legacy_transform_backfill demoStore 5 emptyUserCache
      emptyJourneyCache emptySocialCache).2.1.1 rfl,
   (C8_amended_legacy_transform_backfill demoStore 5 emptyUserCache
      emptyJourneyCache emptySocialCache).2.2.1 rfl⟩

/-- C9 counterexample: a journey starting exactly at `W.start` is counted
both by the current-window total and by the previous-window total, because
the previous filter is `$lte previousPeriodEnd` with
`previousPeriodEnd = W.start` inclusive. -/
theorem C9_counterexample_boundary_counted_twice :
    overviewTotalJourneys boundaryStore (some 172800000) (some 259200000)
      = 1 ∧
    previousJourneys boundaryStore 172800000 259200000 = 1 ∧
    usersCurrentWindowFilter 172800000 259200000 172800000 = true ∧
    usersPreviousWindowFilter 172800000 259200000 172800000 = true := by
  decide

/-- C9 amended: the comparison window satisfies
`previous.start = W.start - (W.end - W.start)` and
`previous.end = W.start`, but it is closed rather than half-open: the two
window filters overlap exactly at the instant `W.start`, so a record
timestamped there belongs to both. -/
theorem C9_amended_previous_window_closed (s e t : Int) (h : s ≤ e) :
    previousPeriodStart s e = s - (e - s) ∧
    previousPeriodEnd s e = s ∧
    (usersCurrentWindowFilter s e t = true ∧
      usersPreviousWindowFilter s e t = true ↔ t = s) := by
  refine ⟨rfl, rfl, ?_⟩
  unfold usersCurrentWindowFilter usersPreviousWindowFilter inDateRange
    previousPeriodStart previousPeriodEnd
  simp only [Bool.and_eq_true, decide_eq_true_eq]
  constructor
  · rintro ⟨⟨h1, h2⟩, h3, h4⟩
    omega
  · rintro rfl
    have he := le_endOfDayMs e
    refine ⟨⟨?_, ?_⟩, ?_, ?_⟩ <;> omega

/-- C9 amended witness: the one-day window starting at the epoch, tested at
its own start instant. -/
theorem C9_amended_previous_window_closed_witness :
    previousPeriodStart 0 86400000 = 0 - (86400000 - 0) ∧
    previousPeriodEnd 0 86400000 = 0 ∧
    (usersCurrentWindowFilter 0 86400000 0 = true ∧
      usersPreviousWindowFilter 0 86400000 0 = true ↔ (0 : Int) = 0) :=
  C9_amended_previous_window_closed 0 86400000 0 (by decide)

/-- C10: in the overview domain `active_journeys` always equals
`total_journeys`, so the subset invariant holds there only as an equality,
while in the journeys domain the status-based active count is at most the
total and can be strictly below it. -/
theorem C10_overview_active_journeys_equal_total :
    (∀ (st : Store) (sd ed : Option Int),
      (computeOverviewAnalytics st sd ed).active_journeys =
        (computeOverviewAnalytics st sd ed).total_journeys) ∧
    (∀ (st : Store) (sd ed : Option Int) (now : Int) (limit : Nat),
      (computeJourneyAnalytics st sd ed now limit).active_journeys ≤
        (computeJourneyAnalytics st sd ed now limit).total_journeys) ∧
    (computeJourneyAnalytics demoStore none none 0 5).active_journeys <
      (computeJourneyAnalytics demoStore none none 0 5).total_journeys := by
  refine ⟨fun st sd ed => rfl, fun st sd ed now limit => ?_, by decide⟩
  show journeysActiveJourneys st sd ed ≤ journeysTotalJourneys st sd ed
  unfold journeysActiveJourneys journeysTotalJourneys countJourneysIn
  exact List.length_filter_le _ _

end Dashboard
